import Mathlib

/-!
Verification of the ownership-scoped CRUD service layer of the
password-manager backend (`app/models/*.py`, `app/schemas/*.py`,
`app/services/*.py`).

Shallow embedding conventions:

* UUID identifiers are modelled as `Nat`; `uuid.uuid4` generation is
  modelled by a fresh-counter field `nextId` on the database state
  (identifiers are generated and never reused, which is all the services
  rely on).
* The SQLAlchemy session plus the relational store is modelled by a
  single `DB` value holding the committed rows of the three tables.
  Each service method is a function from the pre-call committed state to
  the returned value and the post-call committed state.
* `query(T).filter(...).first()` becomes `List.find?`;
  `query(T).filter(...).all()` becomes `List.filter`; `session.add`
  appends a row; `session.delete` removes rows according to the
  ORM-level cascade rules declared on the models (see each operation).
* Every mutating method in the source wraps its body in
  `try: ...; commit()  except SQLAlchemyError: rollback(); raise`.
  This is modelled by a `fail : Bool` parameter injecting a storage
  failure at the commit point: when `fail = true` the commit raises, the
  except-branch rolls the session back (the committed state stays the
  pre-call state) and the error is re-raised to the caller.  The result
  type is `Except DbError α × DB`, the second component being the
  committed state after the call returns or raises.
* Modelled from the spec: the database engine configuration
  (`app/database.py`) is not among the sources.  Following the spec,
  the storage layer enforces username uniqueness at commit
  ("username uniqueness is enforced at the storage layer", surfacing as
  `ConflictError`), and performs no validation of an entry's folder
  reference ("The source never enforces this"); other engine internals
  are outside the modelled storage.  Consequently the Python-side row
  object for a password entry is carried as-is: `name` is held as
  `Option String` because `setattr` can write `None` into the attribute
  even though the column is declared non-nullable (engine-side NOT NULL
  checking lives in the configuration that is not part of the sources).
-/

namespace PasswordManager

/-- Row of the `users` table (`app/models/user.py`). -/
structure User where
  user_id : Nat
  username : String
  password_hash : String
deriving Repr, DecidableEq, BEq

/-- Row of the `folders` table (`app/models/folder.py`). -/
structure Folder where
  folder_id : Nat
  user_id : Nat
  name : String
deriving Repr, DecidableEq, BEq

/-- Row of the `password_entries` table (`app/models/password_entry.py`).
`folder_id`, `username`, `password`, `website_url`, `notes` are nullable
columns; `name` is declared non-nullable but the in-memory attribute can
hold `None` (see the header comment), hence `Option String`. -/
structure PasswordEntry where
  entry_id : Nat
  user_id : Nat
  folder_id : Option Nat
  name : Option String
  username : Option String
  password : Option String
  website_url : Option String
  notes : Option String
deriving Repr, DecidableEq, BEq

/-- The committed state of the three tables, plus the fresh-identifier
counter modelling `uuid.uuid4` generation. -/
structure DB where
  users : List User
  folders : List Folder
  entries : List PasswordEntry
  nextId : Nat
deriving Repr, DecidableEq

/-- `UserCreate` schema (`app/schemas/user.py`): both fields required. -/
structure UserCreate where
  username : String
  password : String
deriving Repr, DecidableEq

/-- `FolderCreate` schema (`app/schemas/folder.py`). -/
structure FolderCreate where
  name : String
deriving Repr, DecidableEq

/-- `FolderUpdate` schema (`app/schemas/folder.py`): `name` required. -/
structure FolderUpdate where
  name : String
deriving Repr, DecidableEq

/-- `PasswordEntryCreate` schema (`app/schemas/password_entry.py`):
`name` required, the rest optional. -/
structure PasswordEntryCreate where
  name : String
  username : Option String
  password : Option String
  website_url : Option String
  notes : Option String
  folder_id : Option Nat
deriving Repr, DecidableEq

/-- `PasswordEntryUpdate` schema (`app/schemas/password_entry.py`): every
field is tri-state, matching pydantic's field-presence tracking used by
`model_dump(exclude_unset=True)`.  The outer `Option` is set/unset; the
inner value is what was explicitly supplied (which may itself be `None`,
i.e. `none`). -/
structure PasswordEntryUpdate where
  name : Option (Option String)
  username : Option (Option String)
  password : Option (Option String)
  website_url : Option (Option String)
  notes : Option (Option String)
  folder_id : Option (Option Nat)
deriving Repr, DecidableEq

/-- Error taxonomy surfaced by the services: `conflict` is an
`IntegrityError` from the storage layer's uniqueness constraint
(spec: `ConflictError`), `storage` any other `SQLAlchemyError`
(spec: `StorageError`). -/
inductive DbError where
  | conflict
  | storage
deriving Repr, DecidableEq

/-- `UserService.get_user_by_id`: single-row query by primary key. -/
def get_user_by_id (db : DB) (uid : Nat) : Option User :=
  db.users.find? (fun u => u.user_id == uid)

/-- `UserService.get_user_by_username`. -/
def get_user_by_username (db : DB) (uname : String) : Option User :=
  db.users.find? (fun u => u.username == uname)

/-- `UserService.create_user`: builds the row, `add`s it and commits.
The commit enforces the `unique=True` constraint on `username`
(modelled from the spec, see header); an injected storage failure is
rolled back and re-raised. -/
def create_user (fail : Bool) (db : DB) (d : UserCreate) :
    Except DbError User × DB :=
  let u : User :=
    { user_id := db.nextId, username := d.username, password_hash := d.password }
  if fail then
    (.error .storage, db)
  else if db.users.any (fun w => w.username == d.username) then
    (.error .conflict, db)
  else
    (.ok u, { db with users := db.users ++ [u], nextId := db.nextId + 1 })

/-- `UserService.delete_user`: fetch by id; absent gives `False` with no
commit.  Present: `session.delete(user)` with the ORM cascade
`all, delete-orphan` on `User.folders` and `User.password_entries`
(`app/models/user.py`), which deletes the user's folders and entries;
deleting each folder in turn triggers the `all, delete-orphan` cascade on
`Folder.password_entries` (`app/models/folder.py`), deleting every entry
whose folder reference points at one of the removed folders. -/
def delete_user (fail : Bool) (db : DB) (uid : Nat) :
    Except DbError Bool × DB :=
  match get_user_by_id db uid with
  | none => (.ok false, db)
  | some _ =>
    if fail then
      (.error .storage, db)
    else
      let owned := (db.folders.filter (fun f => f.user_id == uid)).map
        (fun f => f.folder_id)
      (.ok true,
        { db with
          users := db.users.filter (fun u => u.user_id != uid),
          folders := db.folders.filter (fun f => f.user_id != uid),
          entries := db.entries.filter (fun e =>
            e.user_id != uid && !(e.folder_id.any (fun g => owned.contains g))) })

/-- `FolderService.get_folder_by_id`: filtered by folder id AND owner id
jointly. -/
def get_folder_by_id (db : DB) (fid uid : Nat) : Option Folder :=
  db.folders.find? (fun f => f.folder_id == fid && f.user_id == uid)

/-- `FolderService.get_all_folders_for_user`. -/
def get_all_folders_for_user (db : DB) (uid : Nat) : List Folder :=
  db.folders.filter (fun f => f.user_id == uid)

/-- `FolderService.create_folder`. -/
def create_folder (fail : Bool) (db : DB) (uid : Nat) (d : FolderCreate) :
    Except DbError Folder × DB :=
  let f : Folder := { folder_id := db.nextId, user_id := uid, name := d.name }
  if fail then
    (.error .storage, db)
  else
    (.ok f, { db with folders := db.folders ++ [f], nextId := db.nextId + 1 })

/-- `FolderService.update_folder`: ownership-scoped re-fetch; absent
gives `None` with no side effect; otherwise the fetched row's `name`
attribute is overwritten and the session flushes the mutated row (the
row the fetch matched) on commit. -/
def update_folder (fail : Bool) (db : DB) (fid uid : Nat) (d : FolderUpdate) :
    Except DbError (Option Folder) × DB :=
  match get_folder_by_id db fid uid with
  | none => (.ok none, db)
  | some f =>
    let f' : Folder := { f with name := d.name }
    if fail then
      (.error .storage, db)
    else
      (.ok (some f'),
        { db with
          folders := db.folders.map (fun g =>
            if g.folder_id == fid && g.user_id == uid then f' else g) })

/-- `FolderService.delete_folder`: ownership-scoped fetch, then
`session.delete(folder)`.  The ORM cascade `all, delete-orphan`
declared on `Folder.password_entries` (`app/models/folder.py` lines
54-58) makes the ORM delete every entry of the folder before deleting
the folder row, so the foreign key's `ondelete="SET NULL"` never fires:
the dependent entries are deleted, not detached. -/
def delete_folder (fail : Bool) (db : DB) (fid uid : Nat) :
    Except DbError Bool × DB :=
  match get_folder_by_id db fid uid with
  | none => (.ok false, db)
  | some f =>
    if fail then
      (.error .storage, db)
    else
      (.ok true,
        { db with
          folders := db.folders.filter (fun g => g.folder_id != f.folder_id),
          entries := db.entries.filter (fun e =>
            e.folder_id != some f.folder_id) })

/-- `PasswordEntryService.get_entry_by_id`: filtered by entry id AND
owner id jointly. -/
def get_entry_by_id (db : DB) (eid uid : Nat) : Option PasswordEntry :=
  db.entries.find? (fun e => e.entry_id == eid && e.user_id == uid)

/-- `PasswordEntryService.get_all_entries_for_user`: filter by owner,
then further by folder when a folder filter is supplied. -/
def get_all_entries_for_user (db : DB) (uid : Nat) (fid : Option Nat) :
    List PasswordEntry :=
  let q := db.entries.filter (fun e => e.user_id == uid)
  match fid with
  | none => q
  | some f => q.filter (fun e => e.folder_id == some f)

/-- `PasswordEntryService.create_entry`: builds the row from the payload
exactly as supplied (no check relating `folder_id` to the owner), `add`s
and commits. -/
def create_entry (fail : Bool) (db : DB) (uid : Nat) (d : PasswordEntryCreate) :
    Except DbError PasswordEntry × DB :=
  let e : PasswordEntry :=
    { entry_id := db.nextId, user_id := uid, folder_id := d.folder_id,
      name := some d.name, username := d.username, password := d.password,
      website_url := d.website_url, notes := d.notes }
  if fail then
    (.error .storage, db)
  else
    (.ok e, { db with entries := db.entries ++ [e], nextId := db.nextId + 1 })

/-- The update loop of `PasswordEntryService.update_entry`:
`model_dump(exclude_unset=True)` keeps exactly the fields explicitly set
on the payload, and `setattr` overwrites each such field with the
supplied value (possibly `None`); unset fields are left untouched.
Identifier and owner are not payload fields and are never assigned. -/
def applyUpdate (e : PasswordEntry) (d : PasswordEntryUpdate) : PasswordEntry :=
  { entry_id := e.entry_id
    user_id := e.user_id
    folder_id := d.folder_id.getD e.folder_id
    name := d.name.getD e.name
    username := d.username.getD e.username
    password := d.password.getD e.password
    website_url := d.website_url.getD e.website_url
    notes := d.notes.getD e.notes }

/-- `PasswordEntryService.update_entry`: ownership-scoped fetch; absent
gives `None`; otherwise the provided fields are assigned onto the fetched
row and the session flushes that row on commit. -/
def update_entry (fail : Bool) (db : DB) (eid uid : Nat)
    (d : PasswordEntryUpdate) : Except DbError (Option PasswordEntry) × DB :=
  match get_entry_by_id db eid uid with
  | none => (.ok none, db)
  | some e =>
    let e' := applyUpdate e d
    if fail then
      (.error .storage, db)
    else
      (.ok (some e'),
        { db with
          entries := db.entries.map (fun g =>
            if g.entry_id == eid && g.user_id == uid then e' else g) })

/-- `PasswordEntryService.delete_entry`: ownership-scoped fetch, then
delete of that row (no cascades hang off `PasswordEntry`). -/
def delete_entry (fail : Bool) (db : DB) (eid uid : Nat) :
    Except DbError Bool × DB :=
  match get_entry_by_id db eid uid with
  | none => (.ok false, db)
  | some e =>
    if fail then
      (.error .storage, db)
    else
      (.ok true,
        { db with
          entries := db.entries.filter (fun g => g.entry_id != e.entry_id) })

/-- A `PasswordEntryUpdate()` in which no field was explicitly set:
`model_dump(exclude_unset=True)` on it is empty. -/
def unsetUpdate : PasswordEntryUpdate :=
  { name := none, username := none, password := none,
    website_url := none, notes := none, folder_id := none }

/-- Sample entry: entry 3, owned by user 1, filed in folder 2. -/
def sampleEntry : PasswordEntry :=
  { entry_id := 3,
    user_id := 1,
    folder_id := some 2,
    name := some "Gmail",
    username := none,
    password := none,
    website_url := none,
    notes := none }

/-- Concrete sample database: user 1 ("alice") owns folder 2 ("Work")
and entry 3 ("Gmail") filed in folder 2. -/
def sampleDB : DB :=
  { users := [{ user_id := 1, username := "alice", password_hash := "pw" }],
    folders := [{ folder_id := 2, user_id := 1, name := "Work" }],
    entries := [sampleEntry],
    nextId := 4 }

/-- Sample partial-update payload: `username` explicitly set to "bob",
`password` explicitly set to `None`, `folder_id` explicitly set to
`None` (detach), the other fields left unset. -/
def mixedUpdate : PasswordEntryUpdate :=
  { name := none,
    username := some (some "bob"),
    password := some none,
    website_url := none,
    notes := none,
    folder_id := some none }

/-- Claim C1 (code bug, evaluation at the failing input): deleting folder 2
owned by user 1 returns `true` and removes the folder, but the entry that
referenced it is DELETED rather than kept with its folder reference
cleared — the ORM cascade `all, delete-orphan` on
`Folder.password_entries` deletes dependent entries, contradicting
`delete_folder`'s own docstring ("entries will have folder_id set to
NULL") and the foreign key's `ondelete="SET NULL"`. -/
theorem c1_delete_folder_deletes_dependent_entries :
    (delete_folder false sampleDB 2 1).1 = .ok true ∧
    get_folder_by_id (delete_folder false sampleDB 2 1).2 2 1 = none ∧
    get_entry_by_id (delete_folder false sampleDB 2 1).2 3 1 = none ∧
    (delete_folder false sampleDB 2 1).2.entries = [] :=
  ⟨rfl, rfl, rfl, rfl⟩

/-- Claim C5: creating a user with a username already held by an existing
user fails with the conflict error (the storage-layer uniqueness
violation surfaced to the caller) and leaves the database — in
particular the set of stored users — unchanged. -/
theorem c5_duplicate_username_conflict (db : DB) (d : UserCreate)
    (h : ∃ u ∈ db.users, u.username = d.username) :
    create_user false db d = (.error .conflict, db) := by
  obtain ⟨u, hu, he⟩ := h
  have hany : db.users.any (fun w => w.username == d.username) = true :=
    List.any_eq_true.mpr ⟨u, hu, by simp [he]⟩
  simp [create_user, hany]

/-- Witness for C5 at a concrete database holding a user named "alice". -/
theorem c5_duplicate_username_conflict_witness :
    (∃ u ∈ sampleDB.users, u.username = "alice") ∧
    create_user false sampleDB { username := "alice", password := "x" } =
      (.error .conflict, sampleDB) :=
  ⟨⟨{ user_id := 1, username := "alice", password_hash := "pw" },
      List.Mem.head _, rfl⟩,
    c5_duplicate_username_conflict sampleDB { username := "alice", password := "x" }
      ⟨{ user_id := 1, username := "alice", password_hash := "pw" },
        List.Mem.head _, rfl⟩⟩

/-- Claim C7: the entry listing filtered by a folder returns exactly the
stored entries owned by the given user whose folder reference equals the
given folder; with no folder filter it returns exactly all entries owned
by the user, regardless of their folder reference. -/
theorem c7_list_entries_exact (db : DB) (uid fid : Nat) :
    (∀ e, e ∈ get_all_entries_for_user db uid (some fid) ↔
      e ∈ db.entries ∧ e.user_id = uid ∧ e.folder_id = some fid) ∧
    (∀ e, e ∈ get_all_entries_for_user db uid none ↔
      e ∈ db.entries ∧ e.user_id = uid) := by
  constructor
  · intro e
    simp only [get_all_entries_for_user, List.mem_filter, beq_iff_eq]
    tauto
  · intro e
    simp only [get_all_entries_for_user, List.mem_filter, beq_iff_eq]

/-- Claim C9: entry creation performs no check relating the supplied
folder reference to the owner (or to the stored folders at all): for
every database, owner id and payload — in particular one whose folder id
belongs to another user, or to no stored folder — the entry is created
scoped to the given owner with the folder reference exactly as supplied,
and is appended to the stored entries.  (Storage-engine foreign-key
behaviour is outside the modelled storage: the engine configuration is
not among the sources, and the spec states the reference is never
validated.) -/
theorem c9_create_entry_no_folder_ownership_check (db : DB) (uid : Nat)
    (d : PasswordEntryCreate) :
    ∃ e, (create_entry false db uid d).1 = .ok e ∧
      (create_entry false db uid d).2.entries = db.entries ++ [e] ∧
      e.user_id = uid ∧ e.folder_id = d.folder_id :=
  ⟨_, rfl, rfl, rfl, rfl⟩


/-- If a query finds a row in a table and the replacement row still
matches the query, then after overwriting every matching row with the
replacement (the session flushing the mutated fetched row), the query
finds the replacement. -/
theorem find?_map_ite {α : Type} (p : α → Bool) (e' : α) (l : List α)
    (e : α) (h : l.find? p = some e) (hp : p e' = true) :
    (l.map (fun g => if p g then e' else g)).find? p = some e' := by
  induction l with
  | nil => simp at h
  | cons x xs ih =>
    by_cases hx : p x = true
    · simp only [List.map_cons, if_pos hx]
      exact List.find?_cons_of_pos _ hp
    · rw [List.find?_cons_of_neg _ hx] at h
      simp only [List.map_cons, if_neg hx]
      rw [List.find?_cons_of_neg _ hx]
      exact ih h

/-- Claim C2: when an entry id exists but every entry bearing it is owned
by a different user, the ownership-scoped fetch for the requesting user
returns the very same "not found" sentinel (`none`) as the fetch of an id
that exists nowhere — an ownership mismatch is indistinguishable from a
missing entity; and the same holds for the folder fetch. -/
theorem c2_cross_owner_indistinguishable (db : DB) (u1 u2 eid eid2 fid fid2 : Nat)
    (hu : u1 ≠ u2)
    (heOwn : ∀ en ∈ db.entries, en.entry_id = eid → en.user_id = u1)
    (heEx : ∃ en ∈ db.entries, en.entry_id = eid)
    (heAbs : ∀ en ∈ db.entries, en.entry_id ≠ eid2)
    (hfOwn : ∀ f ∈ db.folders, f.folder_id = fid → f.user_id = u1)
    (hfEx : ∃ f ∈ db.folders, f.folder_id = fid)
    (hfAbs : ∀ f ∈ db.folders, f.folder_id ≠ fid2) :
    get_entry_by_id db eid u2 = none ∧
    get_entry_by_id db eid2 u2 = none ∧
    get_entry_by_id db eid u2 = get_entry_by_id db eid2 u2 ∧
    get_folder_by_id db fid u2 = none ∧
    get_folder_by_id db fid2 u2 = none ∧
    get_folder_by_id db fid u2 = get_folder_by_id db fid2 u2 := by
  have h1 : get_entry_by_id db eid u2 = none := by
    apply List.find?_eq_none.mpr
    intro en hen
    simp only [Bool.and_eq_true, beq_iff_eq, not_and]
    intro hid huid
    exact hu ((heOwn en hen hid).symm.trans huid)
  have h2 : get_entry_by_id db eid2 u2 = none := by
    apply List.find?_eq_none.mpr
    intro en hen
    simp only [Bool.and_eq_true, beq_iff_eq, not_and]
    intro hid _
    exact heAbs en hen hid
  have h3 : get_folder_by_id db fid u2 = none := by
    apply List.find?_eq_none.mpr
    intro f hf
    simp only [Bool.and_eq_true, beq_iff_eq, not_and]
    intro hid huid
    exact hu ((hfOwn f hf hid).symm.trans huid)
  have h4 : get_folder_by_id db fid2 u2 = none := by
    apply List.find?_eq_none.mpr
    intro f hf
    simp only [Bool.and_eq_true, beq_iff_eq, not_and]
    intro hid _
    exact hfAbs f hf hid
  exact ⟨h1, h2, h1.trans h2.symm, h3, h4, h3.trans h4.symm⟩

/-- Witness for C2: in the sample database, entry 3 and folder 2 are
owned by user 1; user 2's fetches of them return `none`, same as for the
nonexistent ids 99 and 98. -/
theorem c2_cross_owner_indistinguishable_witness :
    (1 : Nat) ≠ 2 ∧ (∃ en ∈ sampleDB.entries, en.entry_id = 3) ∧
    (get_entry_by_id sampleDB 3 2 = none ∧
      get_entry_by_id sampleDB 99 2 = none ∧
      get_entry_by_id sampleDB 3 2 = get_entry_by_id sampleDB 99 2 ∧
      get_folder_by_id sampleDB 2 2 = none ∧
      get_folder_by_id sampleDB 98 2 = none ∧
      get_folder_by_id sampleDB 2 2 = get_folder_by_id sampleDB 98 2) :=
  ⟨by decide, by decide,
    c2_cross_owner_indistinguishable sampleDB 1 2 3 99 2 98 (by decide)
      (by simp [sampleDB, sampleEntry]) (by decide)
      (by simp [sampleDB, sampleEntry]) (by simp [sampleDB])
      (by decide) (by simp [sampleDB])⟩

/-- Claim C4: deleting a user returns `false` when no user with that id
exists (and changes nothing); when one exists it returns `true` and, in
the same committed transition as removing the user row, removes every
folder and every entry owned by that user, so that afterwards no folder
or entry with that owner remains and the user row is gone. -/
theorem c4_delete_user_cascade (db : DB) (uid : Nat) :
    (get_user_by_id db uid = none → delete_user false db uid = (.ok false, db)) ∧
    (get_user_by_id db uid ≠ none →
      (delete_user false db uid).1 = .ok true ∧
      get_user_by_id (delete_user false db uid).2 uid = none ∧
      (∀ f ∈ (delete_user false db uid).2.folders, f.user_id ≠ uid) ∧
      (∀ e ∈ (delete_user false db uid).2.entries, e.user_id ≠ uid)) := by
  constructor
  · intro h
    simp [delete_user, h]
  · intro h
    obtain ⟨u, hu⟩ := Option.ne_none_iff_exists'.mp h
    refine ⟨?_, ?_, ?_, ?_⟩
    · simp [delete_user, hu]
    · simp only [delete_user, hu]
      apply List.find?_eq_none.mpr
      intro x hx
      have := (List.mem_filter.mp hx).2
      simp only [bne_iff_ne, ne_eq, beq_iff_eq] at this ⊢
      exact this
    · intro f hf
      simp only [delete_user, hu] at hf
      have := (List.mem_filter.mp hf).2
      simpa using this
    · intro e he
      simp only [delete_user, hu] at he
      have := (List.mem_filter.mp he).2
      simp only [Bool.and_eq_true, bne_iff_ne, ne_eq] at this
      exact this.1

/-- Witness for C4: deleting user 1 from the sample database removes the
user together with the folder and the entry user 1 owned. -/
theorem c4_delete_user_cascade_witness :
    get_user_by_id sampleDB 1 ≠ none ∧
    ((delete_user false sampleDB 1).1 = .ok true ∧
      get_user_by_id (delete_user false sampleDB 1).2 1 = none ∧
      (∀ f ∈ (delete_user false sampleDB 1).2.folders, f.user_id ≠ 1) ∧
      (∀ e ∈ (delete_user false sampleDB 1).2.entries, e.user_id ≠ 1)) :=
  ⟨by decide, (c4_delete_user_cascade sampleDB 1).2 (by decide)⟩

/-- Claim C6: for every mutating service operation, an underlying storage
failure raised at the commit makes the operation roll back (the
committed state after the call is exactly the pre-call state — no
partial change survives) and re-raise the failure to the caller as the
storage error; no operation swallows it or retries.  The create
operations always reach the commit; the fetch-first operations reach it
whenever the ownership-scoped fetch succeeds (otherwise they return
their "not found" result without touching storage). -/
theorem c6_storage_failure_rollback (db : DB) (ud : UserCreate)
    (fd : FolderCreate) (fu : FolderUpdate) (ed : PasswordEntryCreate)
    (eu : PasswordEntryUpdate) (uid fid eid : Nat) :
    create_user true db ud = (.error .storage, db) ∧
    create_folder true db uid fd = (.error .storage, db) ∧
    create_entry true db uid ed = (.error .storage, db) ∧
    (get_user_by_id db uid ≠ none →
      delete_user true db uid = (.error .storage, db)) ∧
    (get_folder_by_id db fid uid ≠ none →
      update_folder true db fid uid fu = (.error .storage, db)) ∧
    (get_folder_by_id db fid uid ≠ none →
      delete_folder true db fid uid = (.error .storage, db)) ∧
    (get_entry_by_id db eid uid ≠ none →
      update_entry true db eid uid eu = (.error .storage, db)) ∧
    (get_entry_by_id db eid uid ≠ none →
      delete_entry true db eid uid = (.error .storage, db)) := by
  refine ⟨rfl, rfl, rfl, ?_, ?_, ?_, ?_, ?_⟩
  · intro h
    obtain ⟨u, hu⟩ := Option.ne_none_iff_exists'.mp h
    simp [delete_user, hu]
  · intro h
    obtain ⟨f, hf⟩ := Option.ne_none_iff_exists'.mp h
    simp [update_folder, hf]
  · intro h
    obtain ⟨f, hf⟩ := Option.ne_none_iff_exists'.mp h
    simp [delete_folder, hf]
  · intro h
    obtain ⟨e, he⟩ := Option.ne_none_iff_exists'.mp h
    simp [update_entry, he]
  · intro h
    obtain ⟨e, he⟩ := Option.ne_none_iff_exists'.mp h
    simp [delete_entry, he]

/-- Witness for C6 on the sample database: user 1, folder 2 and entry 3
exist, and each of the eight mutating operations surfaces an injected
commit failure as the storage error with the state unchanged. -/
theorem c6_storage_failure_rollback_witness :
    get_user_by_id sampleDB 1 ≠ none ∧
    get_folder_by_id sampleDB 2 1 ≠ none ∧
    get_entry_by_id sampleDB 3 1 ≠ none ∧
    create_user true sampleDB { username := "bob", password := "x" } =
      (.error .storage, sampleDB) ∧
    create_folder true sampleDB 1 { name := "Private" } =
      (.error .storage, sampleDB) ∧
    create_entry true sampleDB 1
        { name := "Site", username := none, password := none,
          website_url := none, notes := none, folder_id := none } =
      (.error .storage, sampleDB) ∧
    delete_user true sampleDB 1 = (.error .storage, sampleDB) ∧
    update_folder true sampleDB 2 1 { name := "Job" } =
      (.error .storage, sampleDB) ∧
    delete_folder true sampleDB 2 1 = (.error .storage, sampleDB) ∧
    update_entry true sampleDB 3 1 unsetUpdate =
      (.error .storage, sampleDB) ∧
    delete_entry true sampleDB 3 1 = (.error .storage, sampleDB) := by
  have h := c6_storage_failure_rollback sampleDB
    { username := "bob", password := "x" } { name := "Private" }
    { name := "Job" }
    { name := "Site", username := none, password := none,
      website_url := none, notes := none, folder_id := none }
    unsetUpdate 1 2 3
  exact ⟨by decide, by decide, by decide, h.1, h.2.1, h.2.2.1,
    h.2.2.2.1 (by decide), h.2.2.2.2.1 (by decide),
    h.2.2.2.2.2.1 (by decide), h.2.2.2.2.2.2.1 (by decide),
    h.2.2.2.2.2.2.2 (by decide)⟩

/-- Claim C3: for an existing entry owned by the caller and any
partial-update payload, the update succeeds and assigns exactly the
fields explicitly set on the payload onto the stored entry: every unset
field (including the identifier and the owner, which are never payload
fields) retains its prior value, and every explicitly supplied field —
even one explicitly supplied as `None` — overwrites the stored value
(clearing it when `None`); the result is persisted under the same
ownership-scoped key. -/
theorem c3_partial_update_assigns_exactly_set_fields (db : DB)
    (eid uid : Nat) (d : PasswordEntryUpdate) (e : PasswordEntry)
    (h : get_entry_by_id db eid uid = some e) :
    ∃ e', (update_entry false db eid uid d).1 = .ok (some e') ∧
      get_entry_by_id (update_entry false db eid uid d).2 eid uid = some e' ∧
      e'.entry_id = e.entry_id ∧ e'.user_id = e.user_id ∧
      (d.name = none → e'.name = e.name) ∧
      (∀ v, d.name = some v → e'.name = v) ∧
      (d.username = none → e'.username = e.username) ∧
      (∀ v, d.username = some v → e'.username = v) ∧
      (d.password = none → e'.password = e.password) ∧
      (∀ v, d.password = some v → e'.password = v) ∧
      (d.website_url = none → e'.website_url = e.website_url) ∧
      (∀ v, d.website_url = some v → e'.website_url = v) ∧
      (d.notes = none → e'.notes = e.notes) ∧
      (∀ v, d.notes = some v → e'.notes = v) ∧
      (d.folder_id = none → e'.folder_id = e.folder_id) ∧
      (∀ v, d.folder_id = some v → e'.folder_id = v) := by
  have hfind : db.entries.find?
      (fun g => g.entry_id == eid && g.user_id == uid) = some e := h
  have hpe := List.find?_some hfind
  have hpe' : ((applyUpdate e d).entry_id == eid &&
      (applyUpdate e d).user_id == uid) = true := hpe
  have hmap := find?_map_ite
    (fun g => g.entry_id == eid && g.user_id == uid)
    (applyUpdate e d) db.entries e hfind hpe'
  refine ⟨applyUpdate e d, ?_, ?_, rfl, rfl, ?_, ?_, ?_, ?_, ?_, ?_, ?_,
    ?_, ?_, ?_, ?_, ?_⟩
  · simp [update_entry, h]
  · simp only [update_entry, h]
    exact hmap
  · intro hv
    simp [applyUpdate, hv]
  · intro v hv
    simp [applyUpdate, hv]
  · intro hv
    simp [applyUpdate, hv]
  · intro v hv
    simp [applyUpdate, hv]
  · intro hv
    simp [applyUpdate, hv]
  · intro v hv
    simp [applyUpdate, hv]
  · intro hv
    simp [applyUpdate, hv]
  · intro v hv
    simp [applyUpdate, hv]
  · intro hv
    simp [applyUpdate, hv]
  · intro v hv
    simp [applyUpdate, hv]
  · intro hv
    simp [applyUpdate, hv]
  · intro v hv
    simp [applyUpdate, hv]

/-- Witness for C3 at the sample database: updating entry 3 of user 1
with a payload that sets `username` to "bob", explicitly clears
`password` and `folder_id`, and leaves the rest unset. -/
theorem c3_partial_update_assigns_exactly_set_fields_witness :
    get_entry_by_id sampleDB 3 1 = some sampleEntry ∧
    (∃ e', (update_entry false sampleDB 3 1 mixedUpdate).1 = .ok (some e') ∧
      get_entry_by_id (update_entry false sampleDB 3 1 mixedUpdate).2 3 1 =
        some e' ∧
      e'.entry_id = sampleEntry.entry_id ∧ e'.user_id = sampleEntry.user_id ∧
      (mixedUpdate.name = none → e'.name = sampleEntry.name) ∧
      (∀ v, mixedUpdate.name = some v → e'.name = v) ∧
      (mixedUpdate.username = none → e'.username = sampleEntry.username) ∧
      (∀ v, mixedUpdate.username = some v → e'.username = v) ∧
      (mixedUpdate.password = none → e'.password = sampleEntry.password) ∧
      (∀ v, mixedUpdate.password = some v → e'.password = v) ∧
      (mixedUpdate.website_url = none →
        e'.website_url = sampleEntry.website_url) ∧
      (∀ v, mixedUpdate.website_url = some v → e'.website_url = v) ∧
      (mixedUpdate.notes = none → e'.notes = sampleEntry.notes) ∧
      (∀ v, mixedUpdate.notes = some v → e'.notes = v) ∧
      (mixedUpdate.folder_id = none → e'.folder_id = sampleEntry.folder_id) ∧
      (∀ v, mixedUpdate.folder_id = some v → e'.folder_id = v)) :=
  ⟨rfl, c3_partial_update_assigns_exactly_set_fields sampleDB 3 1
    mixedUpdate sampleEntry rfl⟩

/-- Claim C8: folder update first re-fetches under the joint
(folder id AND owner id) ownership filter; when that fetch finds
nothing it returns the "not found" sentinel and the stored state is
exactly the pre-call state (no partial side effect); otherwise it
replaces the folder's name with the supplied one and persists the
renamed folder under the same key, its identifier and owner
unchanged. -/
theorem c8_update_folder_refetch_then_rename (db : DB) (fid uid : Nat)
    (d : FolderUpdate) :
    (get_folder_by_id db fid uid = none →
      update_folder false db fid uid d = (.ok none, db)) ∧
    (∀ f, get_folder_by_id db fid uid = some f →
      ∃ f', (update_folder false db fid uid d).1 = .ok (some f') ∧
        f'.name = d.name ∧ f'.folder_id = f.folder_id ∧
        f'.user_id = f.user_id ∧
        get_folder_by_id (update_folder false db fid uid d).2 fid uid =
          some f') := by
  constructor
  · intro h
    simp [update_folder, h]
  · intro f h
    have hfind : db.folders.find?
        (fun g => g.folder_id == fid && g.user_id == uid) = some f := h
    have hp := List.find?_some hfind
    have hp' : (({ f with name := d.name } : Folder).folder_id == fid &&
        ({ f with name := d.name } : Folder).user_id == uid) = true := hp
    have hmap := find?_map_ite
      (fun g => g.folder_id == fid && g.user_id == uid)
      { f with name := d.name } db.folders f hfind hp'
    refine ⟨{ f with name := d.name }, ?_, rfl, rfl, rfl, ?_⟩
    · simp [update_folder, h]
    · simp only [update_folder, h]
      exact hmap

/-- Witness for C8: renaming folder 2 of user 1 in the sample database
to "Job". -/
theorem c8_update_folder_refetch_then_rename_witness :
    get_folder_by_id sampleDB 2 1 =
      some { folder_id := 2, user_id := 1, name := "Work" } ∧
    (∃ f', (update_folder false sampleDB 2 1 { name := "Job" }).1 =
        .ok (some f') ∧
      f'.name = "Job" ∧ f'.folder_id = 2 ∧ f'.user_id = 1 ∧
      get_folder_by_id (update_folder false sampleDB 2 1
        { name := "Job" }).2 2 1 = some f') :=
  ⟨rfl, (c8_update_folder_refetch_then_rename sampleDB 2 1
    { name := "Job" }).2 { folder_id := 2, user_id := 1, name := "Work" } rfl⟩

/-- Claim C10: updating an existing entry of the caller with a payload
in which no field was explicitly set succeeds — it does not return the
"not found" sentinel — and acts as the identity on the entry: the
operation returns and persists the entry with every stored field,
including its folder reference, at its prior value. -/
theorem c10_unset_update_is_identity (db : DB) (eid uid : Nat)
    (e : PasswordEntry) (h : get_entry_by_id db eid uid = some e) :
    (update_entry false db eid uid unsetUpdate).1 = .ok (some e) ∧
    get_entry_by_id (update_entry false db eid uid unsetUpdate).2 eid uid =
      some e := by
  have hfind : db.entries.find?
      (fun g => g.entry_id == eid && g.user_id == uid) = some e := h
  have hpe := List.find?_some hfind
  have hmap := find?_map_ite
    (fun g => g.entry_id == eid && g.user_id == uid)
    e db.entries e hfind hpe
  constructor
  · simp [update_entry, h, applyUpdate, unsetUpdate]
  · simp only [update_entry, h]
    exact hmap

/-- Witness for C10: the all-unset update of entry 3 of user 1 in the
sample database returns and keeps the entry unchanged. -/
theorem c10_unset_update_is_identity_witness :
    get_entry_by_id sampleDB 3 1 = some sampleEntry ∧
    ((update_entry false sampleDB 3 1 unsetUpdate).1 =
        .ok (some sampleEntry) ∧
      get_entry_by_id (update_entry false sampleDB 3 1 unsetUpdate).2 3 1 =
        some sampleEntry) :=
  ⟨rfl, c10_unset_update_is_identity sampleDB 3 1 sampleEntry rfl⟩

end PasswordManager
